import Mathlib

/-!
Verification of the `corostc` client library (src/corostc/__init__.py)
against its natural-language specification.

The Python source is shallowly embedded below: Python values appearing in
parsed JSON responses and in activity-record dictionaries become the
inductive type `PyVal`; dictionaries become insertion-ordered association
lists; machine side effects (HTTP exchanges) become explicit function
arguments describing the responses the server would give; fallible Python
code (uncaught `KeyError`, `ValueError`, `assert`, failed envelope checks)
becomes `Option` / `Except`.
-/

namespace Corostc

/-- A Python value as it occurs in the client: JSON scalars and objects,
plus the `datetime.date`, `datetime.timezone`, `datetime.datetime` and
`CorosSportType` objects that normalization inserts into activity records.
`pydate y m d` is `datetime.date(y, m, d)`; `pytz off` is
`timezone(timedelta(minutes=off))`; `pydatetime t off` is an aware datetime
whose POSIX timestamp is `t` seconds and whose `tzinfo` is `pytz off`. -/
inductive PyVal where
  | none_ : PyVal
  | int (n : Int) : PyVal
  | str (s : String) : PyVal
  | bool (b : Bool) : PyVal
  | pydate (y m d : Int) : PyVal
  | pytz (offsetMinutes : Int) : PyVal
  | pydatetime (epochSeconds : Int) (offsetMinutes : Int) : PyVal
  | sport (code : Int) : PyVal
  | obj (fields : List (String × PyVal)) : PyVal

/-- A Python `dict` with `str` keys, as an insertion-ordered association
list (keys are unique in every dictionary the vendor or the client builds). -/
abbrev PyDict := List (String × PyVal)

/-- `d.get(k)` / `d[k]`: the value stored under the first occurrence of `k`. -/
def lookupKey : PyDict → String → Option PyVal
  | [], _ => none
  | (k, v) :: rest, k' => if k = k' then some v else lookupKey rest k'

/-- `d[k] = v`: replace the value under `k` in place if `k` is present
(dict assignment keeps the key's position), otherwise append the pair. -/
def setKey : PyDict → String → PyVal → PyDict
  | [], k, v => [(k, v)]
  | (k0, v0) :: rest, k, v =>
    if k0 = k then (k0, v) :: rest else (k0, v0) :: setKey rest k v

/-- Python truthiness, `bool(v)`. `sport` is an `IntEnum` member, truthy
whenever its integer code is nonzero (every `CorosSportType` code is). -/
def pyTruthy : PyVal → Bool
  | .none_ => false
  | .int n => n != 0
  | .str s => s != ""
  | .bool b => b
  | .pydate _ _ _ => true
  | .pytz _ => true
  | .pydatetime _ _ => true
  | .sport c => c != 0
  | .obj fs => !fs.isEmpty

/-- Truthiness of an `Optional[str]` attribute (`if self.username:` style):
`None` and the empty string are falsy. -/
def truthyStr : Option String → Bool
  | none => false
  | some s => s != ""

/-- Python `s.lower()` on the ASCII account strings the client compares:
lower-case each character. -/
def strToLower (s : String) : String := String.mk (s.data.map Char.toLower)

/-- The exceptions the client can raise.
`transport` is `requests`' `raise_for_status` error; `api` is the
`RuntimeError` of `_coros_raise_or_json`, carrying `j.get("message")` and
`j.get("result")`; `authError` is the `RuntimeError` of `_authenticate`;
`assertionError` is the failed username/email `assert`; `keyError` is an
uncaught `KeyError`; `typeError` stands for `AttributeError`/`TypeError`
on a response body that is not a JSON object; `nameError` is the unbound
`j` reached when a falsy-but-not-`None` access token skips both the
identity query and the login. -/
inductive CorosError where
  | transport (status : Nat) : CorosError
  | api (message : Option PyVal) (result : Option PyVal) : CorosError
  | authError (msg : String) : CorosError
  | assertionError : CorosError
  | keyError (k : String) : CorosError
  | typeError : CorosError
  | nameError : CorosError

/-- An HTTP exchange's outcome, as far as the client can observe it:
either a non-2xx status (so `raise_for_status` raises) or a 2xx status
with the parsed JSON body. -/
inductive Resp where
  | transportError (status : Nat) : Resp
  | body (j : PyVal) : Resp

/-- The test `j.get('result') != '0000'` of line 64, as a success
predicate on the looked-up `result` field: only the exact string
`"0000"` counts as success (an absent field, a non-string value, and any
other string all fail). -/
def isSuccessResult : Option PyVal → Bool
  | some (.str s) => s == "0000"
  | _ => false

/-- `CorosTCClient._coros_raise_or_json` (lines 60-66): raise on a
transport-level failure, parse the body, raise a `RuntimeError` carrying
the vendor message text and result code unless `result` is exactly
`"0000"`, and otherwise return the WHOLE parsed body `j` (line 66) —
callers extract `['data']` themselves. A body that is not a JSON object
has no `.get` and fails. -/
def corosRaiseOrJson : Resp → Except CorosError PyVal
  | .transportError s => .error (.transport s)
  | .body j =>
    match j with
    | .obj fs =>
      if isSuccessResult (lookupKey fs "result") then .ok (.obj fs)
      else .error (.api (lookupKey fs "message") (lookupKey fs "result"))
    | _ => .error .typeError

/-- The integer codes of the `CorosSportType` `IntEnum` (lines 22-45). -/
def corosSportTypeCodes : List Int :=
  [100, 101, 103, 104, 105, 200, 201, 300, 301, 402, 400, 401,
   500, 501, 502, 503, 706, 705, 700, 701, 702, 704, 900]

/-- `CorosSportType(v)`: the enum member when `v` is one of the member
codes, or `none` when the constructor raises `ValueError` (an unknown
integer, or any non-integer value). -/
def corosSportTypeOf (v : PyVal) : Option PyVal :=
  match v with
  | .int n => if n ∈ corosSportTypeCodes then some (.sport n) else none
  | _ => none

/-- Leap-year test of the Gregorian calendar (Python `calendar.isleap`,
as used by `datetime.date`'s validation). -/
def isLeap (y : Int) : Bool :=
  y % 4 == 0 && (y % 100 != 0 || y % 400 == 0)

/-- Number of days in month `m` of year `y`. -/
def daysInMonth (y m : Int) : Int :=
  if m = 2 then (if isLeap y then 29 else 28)
  else if m = 4 ∨ m = 6 ∨ m = 9 ∨ m = 11 then 30
  else 31

/-- `datetime.date(y, m, d)`: validates its arguments (`ValueError`,
uncaught at line 124, when out of range) and builds a date object. -/
def mkDate (y m d : Int) : Option PyVal :=
  if 1 ≤ y ∧ y ≤ 9999 ∧ 1 ≤ m ∧ m ≤ 12 ∧ 1 ≤ d ∧ d ≤ daysInMonth y m
  then some (.pydate y m d) else none

/-- `timezone(timedelta(minutes=off))`: a fixed-offset time zone; the
offset must be strictly between -24 and +24 hours (`ValueError` otherwise). -/
def mkTimezone (off : Int) : Option PyVal :=
  if -1440 < off ∧ off < 1440 then some (.pytz off) else none

/-- Read an integer-valued field of a record, as the arithmetic at lines
124-128 requires (a missing key is an uncaught `KeyError`, a non-integer
value an uncaught `TypeError`). -/
def getInt (a : PyDict) (k : String) : Option Int :=
  match lookupKey a k with
  | some (.int n) => some n
  | _ => none

/-- Lines 120-123: `a['_sportType'] = CorosSportType(a['sportType'])`,
with `ValueError` caught and merely logged, leaving the record unchanged.
The log call in the `except` branch reads `a['labelId']`, so a record
with an unknown sport type but no `labelId` raises an uncaught
`KeyError` there. -/
def sportStep (a : PyDict) (v : PyVal) : Option PyDict :=
  match corosSportTypeOf v with
  | some e => some (setKey a "_sportType" e)
  | none =>
    match lookupKey a "labelId" with
    | some _ => some a
    | none => none

/-- Python `s.startswith(p)`: prefix test, taken on the character
sequences of the two strings. -/
def strStartsWith (s p : String) : Bool := p.data.isPrefixOf s.data

/-- Line 129: `a.update({k: bool(v) for k, v in a.items() if
k.startswith(('has', 'is'))})` — every field whose name starts with
`has` or `is` is coerced to a boolean in place; all other fields are
untouched. -/
def coerceFlags (a : PyDict) : PyDict :=
  a.map (fun kv =>
    bif strStartsWith kv.1 "has" || strStartsWith kv.1 "is"
    then (kv.1, .bool (pyTruthy kv.2)) else kv)

/-- The per-record normalization of `list_activities` (lines 119-130), in
source order: derive `_sportType` (unknown codes logged, not raised),
`_date` from the `yyyymmdd` integer (Python `//` and `%` are `Int.fdiv`
and `Int.fmod`), `_startTimezone`/`_endTimezone` from the quarter-hour
offsets, `_startTime`/`_endTime` as the raw epoch stamps attached to
those zones, then coerce the `has*`/`is*` flags. The writes only touch
`_`-prefixed keys, so each later read of a raw key is unaffected by them.
`none` models an uncaught exception (missing/ill-typed field, invalid
date, out-of-range offset). -/
def normalize (a : PyDict) : Option PyDict := do
  let sv ← lookupKey a "sportType"
  let a ← sportStep a sv
  let dn ← getInt a "date"
  let dv ← mkDate (dn.fdiv 10000) ((dn.fdiv 100).fmod 100) (dn.fmod 100)
  let a := setKey a "_date" dv
  let sq ← getInt a "startTimezone"
  let stz ← mkTimezone (sq * 15)
  let a := setKey a "_startTimezone" stz
  let eq ← getInt a "endTimezone"
  let etz ← mkTimezone (eq * 15)
  let a := setKey a "_endTimezone" etz
  let sT ← getInt a "startTime"
  let a := setKey a "_startTime" (.pydatetime sT (sq * 15))
  let eT ← getInt a "endTime"
  let a := setKey a "_endTime" (.pydatetime eT (eq * 15))
  return coerceFlags a

/-! ## Pagination (`list_activities`, lines 103-137)

The activity-query endpoint is abstracted as a function from the 1-based
page number to the decoded `data` object of that page's envelope: its
reported total `count` and its `dataList`.  The generator is embedded as
a function producing the whole run at once: how many page requests were
issued, the records yielded (in order, including those yielded before an
error escapes), and how the run ended. -/

/-- The `data` object of one `/activity/query` response. -/
structure Page where
  count : Nat
  dataList : List PyDict

/-- How a listing run ends: normally; with the line-134 `AssertionError`
(`total activity count changed`); with an exception escaping from the
normalization of one record; or with the fuel of the embedding exhausted
(the Python loop is unbounded; every theorem below supplies enough fuel
for this case never to arise). -/
inductive ListOutcome where
  | ok : ListOutcome
  | consistencyError (oldTotal newTotal : Nat) : ListOutcome
  | recordError : ListOutcome
  | fuelExhausted : ListOutcome
deriving DecidableEq

/-- One complete run of the `list_activities` generator. -/
structure ListRun where
  requests : Nat
  yielded : List PyDict
  outcome : ListOutcome

/-- Lines 119-130: yield the page's records one at a time; a record whose
normalization raises stops the page, after the earlier records of the
page have already been yielded. Returns the yielded records and whether
the whole page went through. -/
def yieldPage : List PyDict → List PyDict × Bool
  | [] => ([], true)
  | a :: rest =>
    match normalize a with
    | none => ([], false)
    | some a' =>
      let r := yieldPage rest
      (a' :: r.1, r.2)

/-- The `for page in count(1):` loop body (lines 108-137), from page `p`
onwards. `total` is `None` before the first page. Per iteration, in
source order: fetch page `p` (one request); yield its records (line
119-130); seed `total` from `j['count']` on the first page (line 132-133);
assert the reported count still equals `total` (line 134); stop when
`end_index = batch_size * p - 1` reaches the total (line 136). -/
def listLoop (server : Nat → Page) (batchSize : Nat) :
    Option Nat → Nat → Nat → ListRun
  | _, _, 0 => ⟨0, [], .fuelExhausted⟩
  | total, p, fuel + 1 =>
    let pg := server p
    let yp := yieldPage pg.dataList
    if yp.2 = false then ⟨1, yp.1, .recordError⟩
    else
      let t := total.getD pg.count
      if pg.count ≠ t then ⟨1, yp.1, .consistencyError t pg.count⟩
      else if batchSize * p - 1 ≥ t then ⟨1, yp.1, .ok⟩
      else
        let rest := listLoop server batchSize (some t) (p + 1) fuel
        ⟨1 + rest.requests, yp.1 ++ rest.yielded, rest.outcome⟩

/-- `CorosTCClient.list_activities(batch_size)`: run the pagination loop
from page 1 with no total yet. -/
def listActivities (server : Nat → Page) (batchSize : Nat) (fuel : Nat) :
    ListRun :=
  listLoop server batchSize none 1 fuel

/-- A well-behaved vendor holding a fixed list of records: every page
reports the true total and serves the records of the requested index
range `[batchSize*(p-1), batchSize*p)` in order. -/
def honestServer (records : List PyDict) (batchSize : Nat) :
    Nat → Page :=
  fun p => ⟨records.length, (records.drop (batchSize * (p - 1))).take batchSize⟩

/-! ## Client state, authentication (lines 52-101) and disconnect -/

/-- The mutable attributes of a `CorosTCClient` instance. The `requests`
session object is reduced to whether one is currently open; `user_id` and
`nickname` hold whatever the envelope's `data` carried. -/
structure ClientState where
  username : Option String
  password : Option String
  accesstoken : Option String
  sessionOpen : Bool
  userId : Option PyVal
  nickname : Option PyVal

/-- The message of the line-89 `RuntimeError`. -/
def authMsg : String := "Cannot authenticate without username and password"

/-- Lines 94-101, shared by both authentication paths: read
`j['data']`, store the returned access token, user id and nickname, and —
when the stored username is truthy — assert it equals the returned email
case-insensitively, then ALWAYS overwrite `self.username` with the
returned email (line 100 runs unconditionally). The token and email are
required to be strings, as the vendor returns them. -/
def finishAuth (c : ClientState) (j : PyVal) : Except CorosError ClientState :=
  match j with
  | .obj fs =>
    match lookupKey fs "data" with
    | some (.obj d) =>
      match lookupKey d "accessToken", lookupKey d "userId",
            lookupKey d "nickname", lookupKey d "email" with
      | some (.str tok), some uid, some nick, some (.str email) =>
        let c1 : ClientState :=
          { c with accesstoken := some tok, userId := some uid, nickname := some nick }
        let adopt : Except CorosError ClientState :=
          .ok { c1 with username := some email }
        match c.username with
        | some u =>
          if u = "" then adopt
          else if strToLower u = strToLower email then adopt
          else .error .assertionError
        | none => adopt
      | _, _, _, _ => .error (.keyError "data fields")
    | some _ => .error .typeError
    | none => .error (.keyError "data")
  | _ => .error .typeError

/-- `CorosTCClient._authenticate` (lines 77-101). `queryResp` is what
`GET /account/query` would return under the supplied token, `loginResp`
what `POST /account/login` would return. If a truthy access token is
present, try the identity query; on any failure discard the token (line
84, logged as a warning). If the token is then `None`, require username
and password (line 88-89) and log in. Finish with the shared epilogue on
whichever envelope body `j` was accepted. A falsy-but-not-`None` token
skips both calls and reaches line 94 with `j` unbound (`NameError`). -/
def authenticate (c : ClientState) (queryResp loginResp : Resp) :
    Except CorosError ClientState :=
  let step1 : ClientState × Option PyVal :=
    if truthyStr c.accesstoken then
      match corosRaiseOrJson queryResp with
      | .ok j => (c, some j)
      | .error _ => ({ c with accesstoken := none }, none)
    else (c, none)
  let c1 := step1.1
  match c1.accesstoken with
  | none =>
    if c1.username = none ∨ c1.password = none then
      .error (.authError authMsg)
    else
      match corosRaiseOrJson loginResp with
      | .ok j => finishAuth c1 j
      | .error e => .error e
  | some _ =>
    match step1.2 with
    | some j => finishAuth c1 j
    | none => .error .nameError

/-- `CorosTCClient.connect` (lines 68-70): open a fresh session object and
authenticate over it. -/
def connect (c : ClientState) (queryResp loginResp : Resp) :
    Except CorosError ClientState :=
  authenticate { c with sessionOpen := true } queryResp loginResp

/-- `CorosTCClient.disconnect` (lines 72-75): close and drop the session
object if one is open; otherwise do nothing. -/
def disconnect (c : ClientState) : ClientState :=
  if c.sessionOpen then { c with sessionOpen := false } else c

/-! ## Upload correlation (`upload_activity`, lines 186-209)

Only the post-upload identification step is embedded: the envelope check
on the upload response itself (line 180) has already succeeded when this
step runs, and any failure here is caught — it can therefore never undo a
successful upload. -/

/-- The `start_time` value of the uploaded FIT file's session message:
`clock` is the POSIX timestamp its wall-clock fields denote when read as
UTC, and `tzOffsetMin` its UTC offset, `none` for a naive datetime. -/
structure FitTime where
  clock : Int
  tzOffsetMin : Option Int

/-- Lines 196-200: a naive start time is tacitly UTC
(`replace(tzinfo=timezone.utc)`), then `start_time = _start_time.timestamp()`. -/
def resolveStartTime (t : FitTime) : Int :=
  match t.tzOffsetMin with
  | none => t.clock
  | some off => t.clock - 60 * off

/-- The fields of a listed activity that the correlation step reads. -/
structure ActSummary where
  labelId : String
  sportType : Int
  startTime : Int

/-- The fixed web base URL (line 19). -/
def COROS_WEB_BASE : String := "https://training.coros.com"

/-- The detail URL built at line 205. -/
def activityUrl (a : ActSummary) : String :=
  COROS_WEB_BASE ++ "/activity-detail?labelId=" ++ a.labelId
    ++ "&sportType=" ++ toString a.sportType

/-- What the correlation step did: the listing window it requested
(as the timestamps of `_start_time - timedelta(days=1)` and
`_start_time + timedelta(days=1)`; `timedelta(days=1)` shifts an aware
fixed-offset datetime by exactly 86400 seconds) and the URL it returned,
`none` when no activity matched (the `StopIteration` of line 208 is
caught and the function falls through to `return None`). -/
structure CorrelationResult where
  windowStart : Int
  windowEnd : Int
  url : Option String

/-- Lines 202-209: re-list the activities in a ±1-day window around the
FIT start time (`listed` abstracts `list_activities(start=..., end=...)`,
taking the window bounds as timestamps) and return the detail URL of the
FIRST activity whose raw `startTime` is within strictly less than 1
second of `start_time`; absent a match, return no URL. -/
def uploadCorrelate (t : FitTime) (listed : Int → Int → List ActSummary) :
    CorrelationResult :=
  let startTime := resolveStartTime t
  let ws := startTime - 86400
  let we := startTime + 86400
  let acts := listed ws we
  { windowStart := ws, windowEnd := we,
    url := (acts.find? (fun a => (a.startTime - startTime).natAbs < 1)).map activityUrl }

/-! ## Concrete vendor data used by witnesses and counterexamples -/

/-- A well-formed vendor activity record: known sport type (`Run`),
calendar date 2023-01-05, start offset +5 quarter hours, end offset -3
quarter hours, GPS flag raw `1`. -/
def recA : PyDict :=
  [("labelId", .str "a1"), ("sportType", .int 100), ("date", .int 20230105),
   ("startTimezone", .int 5), ("endTimezone", .int (-3)),
   ("startTime", .int 1000), ("endTime", .int 2000), ("hasGps", .int 1)]

/-- A second well-formed vendor record. -/
def recB : PyDict :=
  [("labelId", .str "b2"), ("sportType", .int 200), ("date", .int 20230106),
   ("startTimezone", .int 0), ("endTimezone", .int 0),
   ("startTime", .int 3000), ("endTime", .int 4000), ("hasGps", .int 0)]

/-- A vendor record that happens to carry a raw field named `_date`
(value `7`) alongside the ordinary fields. -/
def recU : PyDict :=
  [("labelId", .str "u3"), ("sportType", .int 100), ("date", .int 20230105),
   ("startTimezone", .int 0), ("endTimezone", .int 0),
   ("startTime", .int 1000), ("endTime", .int 2000), ("_date", .int 7)]

/-- A vendor record with the unknown sport-type code `999`. -/
def rec999 : PyDict :=
  [("labelId", .str "x9"), ("sportType", .int 999), ("date", .int 20230107),
   ("startTimezone", .int 0), ("endTimezone", .int 0),
   ("startTime", .int 5000), ("endTime", .int 6000), ("hasGps", .int 1)]

/-- A vendor whose reported total changes between page 1 (total 2) and
page 2 (total 3), each page carrying one record. -/
def mutatingServer : Nat → Page :=
  fun p => if p = 1 then ⟨2, [recA]⟩ else ⟨3, [recB]⟩

/-- A successful envelope body whose `data` sub-object is `c3data`. -/
def c3data : PyVal := .obj [("x", .int 1)]

/-- The fields of `c3body`. -/
def c3fields : List (String × PyVal) :=
  [("result", .str "0000"), ("message", .str "OK"), ("data", c3data)]

/-- A full successful envelope body. -/
def c3body : PyVal := .obj c3fields

/-- A client that was constructed with a username (upper-cased form of
the account email), a password, and no token yet. -/
def c9client : ClientState :=
  ⟨some "A@B.C", some "pw", none, true, none, none⟩

/-- A login envelope body whose `data.email` is the lower-cased form of
`c9client`'s username. -/
def c9body : PyVal :=
  .obj [("result", .str "0000"),
        ("data", .obj [("accessToken", .str "tok1"), ("userId", .str "42"),
                       ("nickname", .str "nick"), ("email", .str "a@b.c")])]

/-- A client holding a stale pre-supplied access token together with a
valid username and password. -/
def c4client : ClientState :=
  ⟨some "user@example.com", some "hunter2", some "oldtok", true, none, none⟩

/-- The identity-query response under the stale token: HTTP 200 but an
envelope failure. -/
def c4query : Resp :=
  .body (.obj [("result", .str "1001"), ("message", .str "token expired")])

/-- A valid login response for `c4client`'s credentials. -/
def c4login : Resp :=
  .body (.obj [("result", .str "0000"),
               ("data", .obj [("accessToken", .str "newtok"),
                              ("userId", .str "42"),
                              ("nickname", .str "nick"),
                              ("email", .str "User@Example.com")])])

/-- A parsed FIT session start time with no time zone attached. -/
def c8fit : FitTime := ⟨1700000000, none⟩

/-- A listing with one non-matching activity followed by two whose raw
`startTime` equals the FIT start time. -/
def c8listed : Int → Int → List ActSummary :=
  fun _ _ => [⟨"aa", 100, 1700000500⟩, ⟨"bb", 100, 1700000000⟩,
              ⟨"cc", 103, 1700000000⟩]

/-- A fully populated connected client. -/
def c10client : ClientState :=
  ⟨some "u", some "p", some "t", true, some (.str "42"), some (.str "nn")⟩

/-! ## Helper lemmas about the dictionary operations -/

theorem lookupKey_setKey_self (a : PyDict) (k : String) (v : PyVal) :
    lookupKey (setKey a k v) k = some v := by
  induction a with
  | nil => simp [setKey, lookupKey]
  | cons kv rest ih =>
    obtain ⟨k0, v0⟩ := kv
    by_cases h : k0 = k
    · simp [setKey, h, lookupKey]
    · simp [setKey, h, lookupKey, ih]

theorem lookupKey_setKey_ne (a : PyDict) (k k' : String) (v : PyVal)
    (h : k ≠ k') : lookupKey (setKey a k v) k' = lookupKey a k' := by
  induction a with
  | nil => simp [setKey, lookupKey, h]
  | cons kv rest ih =>
    obtain ⟨k0, v0⟩ := kv
    by_cases h0 : k0 = k
    · subst h0; simp [setKey, lookupKey, h]
    · simp [setKey, h0, lookupKey, ih]

theorem getInt_congr {a1 a : PyDict} {k : String}
    (h : lookupKey a1 k = lookupKey a k) : getInt a1 k = getInt a k := by
  unfold getInt; rw [h]

theorem getInt_setKey_ne (a : PyDict) (k k' : String) (v : PyVal)
    (h : k ≠ k') : getInt (setKey a k v) k' = getInt a k' :=
  getInt_congr (lookupKey_setKey_ne a k k' v h)

theorem lookupKey_coerceFlags_nonflag (a : PyDict) (k : String)
    (hk : (strStartsWith k "has" || strStartsWith k "is") = false) :
    lookupKey (coerceFlags a) k = lookupKey a k := by
  induction a with
  | nil => rfl
  | cons kv rest ih =>
    obtain ⟨k0, v0⟩ := kv
    simp only [coerceFlags, List.map_cons] at ih ⊢
    by_cases h0 : k0 = k
    · subst h0
      rw [hk]
      simp [lookupKey]
    · cases hf : (strStartsWith k0 "has" || strStartsWith k0 "is") <;>
        simp [lookupKey, h0, ih]

theorem lookupKey_coerceFlags_flag (a : PyDict) (k : String)
    (hk : (strStartsWith k "has" || strStartsWith k "is") = true) :
    lookupKey (coerceFlags a) k
      = (lookupKey a k).map (fun v => PyVal.bool (pyTruthy v)) := by
  induction a with
  | nil => rfl
  | cons kv rest ih =>
    obtain ⟨k0, v0⟩ := kv
    simp only [coerceFlags, List.map_cons] at ih ⊢
    by_cases h0 : k0 = k
    · subst h0
      rw [hk]
      simp [lookupKey]
    · cases hf : (strStartsWith k0 "has" || strStartsWith k0 "is") <;>
        simp [lookupKey, h0, ih]

theorem lookupKey_sportStep {a a1 : PyDict} {sv : PyVal} (k : String)
    (hss : sportStep a sv = some a1) (hk : k ≠ "_sportType") :
    lookupKey a1 k = lookupKey a k := by
  unfold sportStep at hss
  cases hc : corosSportTypeOf sv with
  | some e =>
    rw [hc] at hss
    cases hss
    exact lookupKey_setKey_ne a "_sportType" k e (Ne.symm hk)
  | none =>
    rw [hc] at hss
    cases hl : lookupKey a "labelId" with
    | some w => rw [hl] at hss; cases hss; rfl
    | none => rw [hl] at hss; cases hss

/-- The run of `normalize` on a record whose required fields are present,
well-typed and in range: it succeeds and its result is the record after
the sport-type step with the five derived fields written and the flag
fields coerced, in source order. -/
theorem normalize_eq {a a1 : PyDict} {sv dv stz etz : PyVal}
    {dn sq eq sT eT : Int}
    (hsv : lookupKey a "sportType" = some sv)
    (hss : sportStep a sv = some a1)
    (hdn : getInt a "date" = some dn)
    (hdv : mkDate (dn.fdiv 10000) ((dn.fdiv 100).fmod 100) (dn.fmod 100)
           = some dv)
    (hsq : getInt a "startTimezone" = some sq)
    (hstz : mkTimezone (sq * 15) = some stz)
    (heq : getInt a "endTimezone" = some eq)
    (hetz : mkTimezone (eq * 15) = some etz)
    (hsT : getInt a "startTime" = some sT)
    (heT : getInt a "endTime" = some eT) :
    normalize a = some (coerceFlags (setKey (setKey (setKey (setKey (setKey
      a1 "_date" dv) "_startTimezone" stz) "_endTimezone" etz)
      "_startTime" (.pydatetime sT (sq * 15)))
      "_endTime" (.pydatetime eT (eq * 15)))) := by
  have l1 : ∀ k, k ≠ "_sportType" → lookupKey a1 k = lookupKey a k :=
    fun k hk => lookupKey_sportStep k hss hk
  have hdn1 : getInt a1 "date" = some dn := by
    rw [getInt_congr (l1 _ (by decide))]; exact hdn
  have hsq1 : getInt (setKey a1 "_date" dv) "startTimezone" = some sq := by
    rw [getInt_setKey_ne _ _ _ _ (by decide),
      getInt_congr (l1 _ (by decide))]
    exact hsq
  have heq1 : getInt (setKey (setKey a1 "_date" dv) "_startTimezone" stz)
      "endTimezone" = some eq := by
    rw [getInt_setKey_ne _ _ _ _ (by decide),
      getInt_setKey_ne _ _ _ _ (by decide),
      getInt_congr (l1 _ (by decide))]
    exact heq
  have hsT1 : getInt (setKey (setKey (setKey a1 "_date" dv)
      "_startTimezone" stz) "_endTimezone" etz) "startTime" = some sT := by
    rw [getInt_setKey_ne _ _ _ _ (by decide),
      getInt_setKey_ne _ _ _ _ (by decide),
      getInt_setKey_ne _ _ _ _ (by decide),
      getInt_congr (l1 _ (by decide))]
    exact hsT
  have heT1 : getInt (setKey (setKey (setKey (setKey a1 "_date" dv)
      "_startTimezone" stz) "_endTimezone" etz)
      "_startTime" (.pydatetime sT (sq * 15))) "endTime" = some eT := by
    rw [getInt_setKey_ne _ _ _ _ (by decide),
      getInt_setKey_ne _ _ _ _ (by decide),
      getInt_setKey_ne _ _ _ _ (by decide),
      getInt_setKey_ne _ _ _ _ (by decide),
      getInt_congr (l1 _ (by decide))]
    exact heT
  simp only [normalize, hsv, hss, hdn1, hdv, hsq1, hstz, heq1, hetz,
    hsT1, heT1, Option.bind_eq_bind, Option.some_bind, Option.pure_def]

/-! ## Helper lemmas about the pagination loop -/

theorem yieldPage_eq_of_all (l : List PyDict)
    (h : ∀ x ∈ l, (normalize x).isSome) :
    yieldPage l = (l.filterMap normalize, true) := by
  induction l with
  | nil => rfl
  | cons x rest ih =>
    obtain ⟨x', hx'⟩ :=
      Option.isSome_iff_exists.mp (h x (List.mem_cons_self x rest))
    have hrest := ih (fun y hy => h y (List.mem_cons_of_mem x hy))
    simp [yieldPage, hx', List.filterMap_cons, hrest]

theorem length_filterMap_normalize (l : List PyDict)
    (h : ∀ x ∈ l, (normalize x).isSome) :
    (l.filterMap normalize).length = l.length := by
  induction l with
  | nil => rfl
  | cons x rest ih =>
    obtain ⟨x', hx'⟩ :=
      Option.isSome_iff_exists.mp (h x (List.mem_cons_self x rest))
    have hrest := ih (fun y hy => h y (List.mem_cons_of_mem x hy))
    simp [List.filterMap_cons, hx', hrest]

/-- If the range of page `p` still starts inside the dataset, `p` is at
most `(N + B) / B`, the 1-based index of the page the loop stops on. -/
theorem page_le_stopPage {B p N : Nat} (hB : 1 ≤ B) (h1 : 1 ≤ p)
    (h2 : B * (p - 1) ≤ N) : p ≤ (N + B) / B := by
  rw [Nat.le_div_iff_mul_le hB]
  obtain ⟨q, rfl⟩ : ∃ q, p = q + 1 := ⟨p - 1, (Nat.succ_pred_eq_of_pos h1).symm⟩
  simp only [Nat.add_sub_cancel] at h2
  have hc : q * B = B * q := Nat.mul_comm q B
  have hs : (q + 1) * B = q * B + B := Nat.succ_mul q B
  omega

/-- Conversely, once `end_index = B*p - 1` has reached the total `N`, the
stop page `(N + B) / B` is at most `p`. -/
theorem stopPage_le_page {B p N : Nat} (hB : 1 ≤ B)
    (hstop : N + 1 ≤ B * p) : (N + B) / B ≤ p := by
  have h : (N + B) / B < p + 1 := by
    rw [Nat.div_lt_iff_lt_mul hB]
    have hs : (p + 1) * B = p * B + B := Nat.succ_mul p B
    have hc : p * B = B * p := Nat.mul_comm p B
    omega
  omega

/-- The pagination loop over an honest fixed dataset, from any reachable
page `p`: it finishes cleanly on page `(N + B) / B`, having yielded the
normalized tail of the dataset from index `B*(p-1)` on. -/
theorem listLoop_honest (records : List PyDict) (B : Nat) (hB : 1 ≤ B)
    (hnorm : ∀ x ∈ records, (normalize x).isSome) :
    ∀ fuel p tot, 1 ≤ p → B * (p - 1) ≤ records.length →
      (tot = none ∨ tot = some records.length) →
      (records.length + B) / B + 1 ≤ p + fuel →
      listLoop (honestServer records B) B tot p fuel
        = ⟨(records.length + B) / B + 1 - p,
           (records.drop (B * (p - 1))).filterMap normalize, .ok⟩ := by
  intro fuel
  induction fuel with
  | zero =>
    intro p tot h1 h2 _ hf
    exact absurd (page_le_stopPage hB h1 h2) (by omega)
  | succ f ih =>
    intro p tot h1 h2 h3 hf
    have hpage : ∀ x ∈ (records.drop (B * (p - 1))).take B,
        (normalize x).isSome := fun x hx =>
      hnorm x (List.drop_subset _ _ (List.take_subset _ _ hx))
    have hyp := yieldPage_eq_of_all _ hpage
    have ht : tot.getD (records.length) = records.length := by
      rcases h3 with h3 | h3 <;> simp [h3]
    by_cases hstop : records.length + 1 ≤ B * p
    · -- final page: `end_index >= total` holds, the loop stops
      have hp : p = (records.length + B) / B :=
        Nat.le_antisymm (page_le_stopPage hB h1 h2) (stopPage_le_page hB hstop)
      have htake : (records.drop (B * (p - 1))).take B
          = records.drop (B * (p - 1)) := by
        apply List.take_of_length_le
        rw [List.length_drop]
        obtain ⟨q, rfl⟩ : ∃ q, p = q + 1 :=
          ⟨p - 1, (Nat.succ_pred_eq_of_pos h1).symm⟩
        have hs : B * (q + 1) = B * q + B := Nat.mul_succ B q
        simp only [Nat.add_sub_cancel]
        omega
      simp only [listLoop, honestServer, hyp, ht]
      rw [if_neg (by simp), if_neg (by simp),
        if_pos (show records.length ≤ B * p - 1 by omega), htake]
      simp only [ListRun.mk.injEq]
      exact ⟨by omega, by simp⟩
    · -- non-final page: recurse to page p+1
      have hcont : B * p ≤ records.length := by omega
      have hmul : B * p = B * (p - 1) + B := by
        obtain ⟨q, rfl⟩ : ∃ q, p = q + 1 :=
          ⟨p - 1, (Nat.succ_pred_eq_of_pos h1).symm⟩
        simp [Nat.mul_succ]
      have hrec := ih (p + 1) (some records.length) (by omega)
        (by simpa using hcont) (Or.inr rfl) (by omega)
      have hple : p ≤ (records.length + B) / B := page_le_stopPage hB h1 h2
      have hnext : p + 1 ≤ (records.length + B) / B :=
        page_le_stopPage hB (by omega) (by simpa using hcont)
      simp only [listLoop, honestServer, hyp, ht]
      rw [if_neg (by simp), if_neg (by simp),
        if_neg (show ¬records.length ≤ B * p - 1 by omega)]
      simp only [hrec]
      simp only [ListRun.mk.injEq]
      have hdd : records.drop (B * p)
          = (records.drop (B * (p - 1))).drop B := by
        rw [List.drop_drop, ← hmul]
      refine ⟨by omega, ?_⟩
      rw [show (p + 1 - 1) = p by omega, hdd,
        ← List.filterMap_append, List.take_append_drop]
      simp

/-! ## The claims -/

/-- C10: `disconnect()` modifies only the connection-context field,
setting it to closed; every other client field (username, password,
access token, user id, nickname) is unchanged; calling it with no open
session changes nothing at all; and `disconnect` after `disconnect`
equals a single `disconnect`. -/
theorem C10_disconnect_frame (c : ClientState) :
    (disconnect c).username = c.username ∧
    (disconnect c).password = c.password ∧
    (disconnect c).accesstoken = c.accesstoken ∧
    (disconnect c).userId = c.userId ∧
    (disconnect c).nickname = c.nickname ∧
    (disconnect c).sessionOpen = false ∧
    (c.sessionOpen = false → disconnect c = c) ∧
    disconnect (disconnect c) = disconnect c := by
  unfold disconnect
  by_cases h : c.sessionOpen <;> simp [h]

/-- Witness for C10 at a fully populated connected client. -/
theorem C10_disconnect_frame_witness :
    (disconnect c10client).username = c10client.username ∧
    (disconnect c10client).password = c10client.password ∧
    (disconnect c10client).accesstoken = c10client.accesstoken ∧
    (disconnect c10client).userId = c10client.userId ∧
    (disconnect c10client).nickname = c10client.nickname ∧
    (disconnect c10client).sessionOpen = false ∧
    (c10client.sessionOpen = false → disconnect c10client = c10client) ∧
    disconnect (disconnect c10client) = disconnect c10client :=
  C10_disconnect_frame c10client

/-- C3 counterexample: on a successful envelope (`result = "0000"`) the
shared helper returns the WHOLE parsed body, not the body's `data`
sub-object — the claim's "returns the parsed body's `data` sub-object"
is false.  Here the body `c3body` carries the distinct sub-object
`c3data` under `data`, and the helper returns `c3body` itself. -/
theorem C3_counterexample :
    corosRaiseOrJson (.body c3body) = .ok c3body ∧
    lookupKey c3fields "data" = some c3data ∧
    c3body ≠ c3data := by
  refine ⟨rfl, rfl, fun h => ?_⟩
  have hl := congrArg
    (fun v => match v with | PyVal.obj l => l.length | _ => 0) h
  exact absurd hl (by decide)

/-- C3 (amended): for every transport-successful response with parsed
object body, the helper raises an API-level error carrying the vendor's
message text and result code whenever the body's `result` field is
absent or not the sentinel `"0000"`, and on success (`result` exactly
`"0000"`) it returns the WHOLE parsed body (callers extract its `data`
sub-object themselves). -/
theorem C3_envelope_amended (fs : List (String × PyVal)) (m r : Option PyVal)
    (hm : lookupKey fs "message" = m) (hr : lookupKey fs "result" = r) :
    (isSuccessResult r = true →
      corosRaiseOrJson (.body (.obj fs)) = .ok (.obj fs)) ∧
    (isSuccessResult r = false →
      corosRaiseOrJson (.body (.obj fs)) = .error (.api m r)) ∧
    isSuccessResult (some (.str "0000")) = true ∧
    isSuccessResult none = false ∧
    (∀ v : PyVal, isSuccessResult (some v) = true → v = .str "0000") := by
  subst hm hr
  refine ⟨fun h => ?_, fun h => ?_, rfl, rfl, fun v hv => ?_⟩
  · simp [corosRaiseOrJson, h]
  · simp [corosRaiseOrJson, h]
  · cases v <;> simp [isSuccessResult] at hv
    simp [hv]

/-- Witness for C3 (amended) at the concrete successful body `c3fields`. -/
theorem C3_envelope_amended_witness :
    (lookupKey c3fields "message" = some (.str "OK") ∧
     lookupKey c3fields "result" = some (.str "0000")) ∧
    ((isSuccessResult (some (.str "0000")) = true →
       corosRaiseOrJson (.body (.obj c3fields)) = .ok (.obj c3fields)) ∧
     (isSuccessResult (some (.str "0000")) = false →
       corosRaiseOrJson (.body (.obj c3fields))
         = .error (.api (some (.str "OK")) (some (.str "0000")))) ∧
     isSuccessResult (some (.str "0000")) = true ∧
     isSuccessResult none = false ∧
     (∀ v : PyVal, isSuccessResult (some v) = true → v = .str "0000")) :=
  ⟨⟨rfl, rfl⟩, C3_envelope_amended c3fields _ _ rfl rfl⟩

/-- C8: a successful upload whose parsed FIT session start time carries
no time zone treats that time as UTC; the correlating re-listing is
bounded to exactly that start time minus and plus one calendar day
(86400 s); the selected activity is the FIRST listed one whose raw
`startTime` differs from the start time by strictly less than one
second; and when nothing matches, the result is an absent identifier,
not an exception. -/
theorem C8_upload_correlation (t : FitTime)
    (listed : Int → Int → List ActSummary)
    (l1 l2 : List ActSummary) (a : ActSummary)
    (ht : t.tzOffsetMin = none)
    (hsplit : listed (t.clock - 86400) (t.clock + 86400) = l1 ++ a :: l2)
    (hl1 : l1.all (fun b => 1 ≤ (b.startTime - t.clock).natAbs) = true)
    (hmatch : (a.startTime - t.clock).natAbs < 1) :
    resolveStartTime t = t.clock ∧
    (uploadCorrelate t listed).windowStart = t.clock - 86400 ∧
    (uploadCorrelate t listed).windowEnd = t.clock + 86400 ∧
    (uploadCorrelate t listed).url = some (activityUrl a) ∧
    (∀ g : Int → Int → List ActSummary,
      (g (t.clock - 86400) (t.clock + 86400)).find?
          (fun b => (b.startTime - t.clock).natAbs < 1) = none →
      (uploadCorrelate t g).url = none) := by
  have hrs : resolveStartTime t = t.clock := by
    unfold resolveStartTime; rw [ht]
  refine ⟨hrs, ?_, ?_, ?_, ?_⟩
  · simp [uploadCorrelate, hrs]
  · simp [uploadCorrelate, hrs]
  · have hnone : l1.find? (fun b => (b.startTime - t.clock).natAbs < 1)
        = none := by
      rw [List.find?_eq_none]
      intro x hx
      have hx1 := List.all_eq_true.mp hl1 x hx
      simp at hx1 ⊢
      omega
    simp only [uploadCorrelate, hrs, hsplit]
    rw [List.find?_append, hnone,
      List.find?_cons_of_pos _ (by simpa using hmatch)]
    rfl
  · intro g hg
    simp only [uploadCorrelate, hrs]
    rw [hg]
    rfl

/-- Witness for C8: naive FIT time 1700000000; the first listed activity
is 500 s off, the second matches exactly and is selected over the third. -/
theorem C8_upload_correlation_witness :
    (c8fit.tzOffsetMin = none ∧
     c8listed (c8fit.clock - 86400) (c8fit.clock + 86400)
       = [⟨"aa", 100, 1700000500⟩] ++ ⟨"bb", 100, 1700000000⟩ ::
         [⟨"cc", 103, 1700000000⟩] ∧
     [(⟨"aa", 100, 1700000500⟩ : ActSummary)].all
       (fun b => 1 ≤ (b.startTime - c8fit.clock).natAbs) = true ∧
     ((1700000000 : Int) - c8fit.clock).natAbs < 1) ∧
    (resolveStartTime c8fit = c8fit.clock ∧
     (uploadCorrelate c8fit c8listed).windowStart = c8fit.clock - 86400 ∧
     (uploadCorrelate c8fit c8listed).windowEnd = c8fit.clock + 86400 ∧
     (uploadCorrelate c8fit c8listed).url
       = some (activityUrl ⟨"bb", 100, 1700000000⟩) ∧
     (∀ g : Int → Int → List ActSummary,
       (g (c8fit.clock - 86400) (c8fit.clock + 86400)).find?
           (fun b => (b.startTime - c8fit.clock).natAbs < 1) = none →
       (uploadCorrelate c8fit g).url = none)) :=
  ⟨⟨rfl, rfl, by decide, by decide⟩,
   C8_upload_correlation c8fit c8listed [⟨"aa", 100, 1700000500⟩]
     [⟨"cc", 103, 1700000000⟩] ⟨"bb", 100, 1700000000⟩
     rfl rfl (by decide) (by decide)⟩

/-- C1 counterexample: over an honest dataset of N = 1 record with batch
size B = 1, the claimed request count is ceil(N/B) = (1 + 1 - 1) / 1 = 1,
but the run issues 2 requests: after page 1 the stop check compares
`end_index = 0` against `total = 1`, `0 >= 1` fails, and an empty
trailing page 2 is fetched. -/
theorem C1_counterexample :
    (listActivities (honestServer [recA] 1) 1 10).requests
      ≠ ([recA].length + 1 - 1) / 1 := by decide

/-- C1 (amended): for every listing run over an honest vendor dataset of
N records with batch size B >= 1 (and enough fuel), the run ends cleanly
with exactly `(N + B) / B = ceil((N + 1) / B)` page requests — one more
than `ceil(N / B)` when B divides N (an empty trailing page is fetched
then, because the stop check `end_index >= total` only succeeds one page
later), and equal to `ceil(N / B)` otherwise — and the concatenation of
all yielded records is the normalization of the vendor's records in page
order, one yield per record, with no duplicates or gaps. -/
theorem C1_pagination_amended (records : List PyDict) (B fuel : Nat)
    (hB : 1 ≤ B)
    (hnorm : records.all (fun x => (normalize x).isSome) = true)
    (hfuel : records.length + 1 ≤ fuel) :
    listActivities (honestServer records B) B fuel
      = ⟨(records.length + B) / B, records.filterMap normalize, .ok⟩ ∧
    (records.filterMap normalize).length = records.length := by
  have hn : ∀ x ∈ records, (normalize x).isSome :=
    fun x hx => List.all_eq_true.mp hnorm x hx
  have hRle : (records.length + B) / B ≤ records.length + 1 := by
    have h1 : (records.length + B) / B = records.length / B + 1 :=
      Nat.add_div_right _ (by omega)
    have h2 : records.length / B ≤ records.length := Nat.div_le_self _ _
    omega
  have hrun := listLoop_honest records B hB hn fuel 1 none (le_refl 1)
    (by simp) (Or.inl rfl) (by omega)
  refine ⟨?_, length_filterMap_normalize records hn⟩
  unfold listActivities
  rw [hrun]
  simp

/-- Witness for C1 (amended): one record, batch size 1, two requests. -/
theorem C1_pagination_amended_witness :
    (1 ≤ 1 ∧
     [recA].all (fun x => (normalize x).isSome) = true ∧
     [recA].length + 1 ≤ 10) ∧
    (listActivities (honestServer [recA] 1) 1 10
       = ⟨([recA].length + 1) / 1, [recA].filterMap normalize, .ok⟩ ∧
     ([recA].filterMap normalize).length = [recA].length) :=
  ⟨⟨le_refl 1, by decide, by decide⟩,
   C1_pagination_amended [recA] 1 10 (le_refl 1) (by decide) (by decide)⟩

/-- C2 counterexample: with batch size 1 and `mutatingServer` (page 1
reports total 2 with one record, page 2 reports total 3 with one
record), the run does end in the consistency error — but only AFTER
page 2's record has been yielded, so the claim's "before yielding any of
page 2's records" is false: the yielded sequence is not page 1's yield. -/
theorem C2_counterexample :
    (listActivities mutatingServer 1 10).outcome = .consistencyError 2 3 ∧
    (listActivities mutatingServer 1 10).yielded
      ≠ (yieldPage (mutatingServer 1).dataList).1 := by
  refine ⟨by decide, fun h => ?_⟩
  have hl := congrArg List.length h
  exact absurd hl (by decide)

/-- C2 (amended): whenever the total reported on page 2 differs from the
total reported on page 1 (and page 2 is reached at all, i.e. page 1 did
not already cover the reported total), the run stops with the
consistency error after yielding page 1's AND page 2's records —
the line-119 yields of a page precede the line-134 assertion — and no
further page is fetched: exactly 2 requests are issued. -/
theorem C2_consistency_amended (server : Nat → Page) (B fuel : Nat)
    (hB : 1 ≤ B)
    (h1 : (yieldPage (server 1).dataList).2 = true)
    (h2 : (yieldPage (server 2).dataList).2 = true)
    (hcont : B - 1 < (server 1).count)
    (hdiff : (server 2).count ≠ (server 1).count)
    (hfuel : 2 ≤ fuel) :
    listActivities server B fuel
      = ⟨2, (yieldPage (server 1).dataList).1
              ++ (yieldPage (server 2).dataList).1,
          .consistencyError ((server 1).count) ((server 2).count)⟩ := by
  obtain ⟨f, rfl⟩ : ∃ f, fuel = f + 2 := ⟨fuel - 2, by omega⟩
  show listLoop server B none 1 (f + 1 + 1) = _
  simp only [listLoop, h1, h2, Option.getD_none, Option.getD_some]
  rw [if_neg (by simp), if_neg (by simp),
    if_neg (show ¬(server 1).count ≤ B * 1 - 1 by omega),
    if_neg (by simp), if_pos hdiff]
  simp

/-- Witness for C2 (amended) at `mutatingServer` with batch size 1. -/
theorem C2_consistency_amended_witness :
    (1 ≤ 1 ∧
     (yieldPage (mutatingServer 1).dataList).2 = true ∧
     (yieldPage (mutatingServer 2).dataList).2 = true ∧
     1 - 1 < (mutatingServer 1).count ∧
     (mutatingServer 2).count ≠ (mutatingServer 1).count ∧
     2 ≤ 10) ∧
    listActivities mutatingServer 1 10
      = ⟨2, (yieldPage (mutatingServer 1).dataList).1
              ++ (yieldPage (mutatingServer 2).dataList).1,
          .consistencyError ((mutatingServer 1).count)
            ((mutatingServer 2).count)⟩ :=
  ⟨⟨le_refl 1, by decide, by decide, by decide, by decide, by decide⟩,
   C2_consistency_amended mutatingServer 1 10 (le_refl 1) (by decide)
     (by decide) (by decide) (by decide) (by decide)⟩

/-- C5: for every integer quarter-hour offset `q` in `startTimezone` /
`endTimezone` of a record that normalizes, the derived fixed-offset time
zones `_startTimezone` / `_endTimezone` have UTC offsets of exactly
`15*q` minutes, and the derived `_startTime` / `_endTime` instants are
the raw epoch timestamps `startTime` / `endTime` interpreted in those
zones. -/
theorem C5_quarter_hour_timezones (a a1 : PyDict) (sv dv : PyVal)
    (dn sq eq sT eT : Int)
    (hsv : lookupKey a "sportType" = some sv)
    (hss : sportStep a sv = some a1)
    (hdn : getInt a "date" = some dn)
    (hdv : mkDate (dn.fdiv 10000) ((dn.fdiv 100).fmod 100) (dn.fmod 100)
           = some dv)
    (hsq : getInt a "startTimezone" = some sq)
    (heq : getInt a "endTimezone" = some eq)
    (hsT : getInt a "startTime" = some sT)
    (heT : getInt a "endTime" = some eT)
    (hb1 : -96 < sq) (hb2 : sq < 96) (hb3 : -96 < eq) (hb4 : eq < 96) :
    (normalize a).isSome ∧
    lookupKey ((normalize a).getD []) "_startTimezone"
      = some (.pytz (sq * 15)) ∧
    lookupKey ((normalize a).getD []) "_endTimezone"
      = some (.pytz (eq * 15)) ∧
    lookupKey ((normalize a).getD []) "_startTime"
      = some (.pydatetime sT (sq * 15)) ∧
    lookupKey ((normalize a).getD []) "_endTime"
      = some (.pydatetime eT (eq * 15)) := by
  have hstz : mkTimezone (sq * 15) = some (.pytz (sq * 15)) := by
    unfold mkTimezone
    rw [if_pos (by constructor <;> omega)]
  have hetz : mkTimezone (eq * 15) = some (.pytz (eq * 15)) := by
    unfold mkTimezone
    rw [if_pos (by constructor <;> omega)]
  have hne := normalize_eq hsv hss hdn hdv hsq hstz heq hetz hsT heT
  rw [hne]
  refine ⟨rfl, ?_, ?_, ?_, ?_⟩
  · rw [Option.getD_some, lookupKey_coerceFlags_nonflag _ _ (by decide),
      lookupKey_setKey_ne _ _ _ _ (by decide),
      lookupKey_setKey_ne _ _ _ _ (by decide),
      lookupKey_setKey_ne _ _ _ _ (by decide),
      lookupKey_setKey_self]
  · rw [Option.getD_some, lookupKey_coerceFlags_nonflag _ _ (by decide),
      lookupKey_setKey_ne _ _ _ _ (by decide),
      lookupKey_setKey_ne _ _ _ _ (by decide),
      lookupKey_setKey_self]
  · rw [Option.getD_some, lookupKey_coerceFlags_nonflag _ _ (by decide),
      lookupKey_setKey_ne _ _ _ _ (by decide),
      lookupKey_setKey_self]
  · rw [Option.getD_some, lookupKey_coerceFlags_nonflag _ _ (by decide),
      lookupKey_setKey_self]

/-- Witness for C5 at record `recA`: offset +5 becomes +75 minutes and
offset -3 becomes -45 minutes, attached to the raw epoch stamps. -/
theorem C5_quarter_hour_timezones_witness :
    (lookupKey recA "sportType" = some (.int 100) ∧
     sportStep recA (.int 100) = some (setKey recA "_sportType" (.sport 100)) ∧
     getInt recA "date" = some 20230105 ∧
     mkDate ((20230105 : Int).fdiv 10000)
       (((20230105 : Int).fdiv 100).fmod 100) ((20230105 : Int).fmod 100)
       = some (.pydate 2023 1 5) ∧
     getInt recA "startTimezone" = some 5 ∧
     getInt recA "endTimezone" = some (-3) ∧
     getInt recA "startTime" = some 1000 ∧
     getInt recA "endTime" = some 2000 ∧
     (-96 : Int) < 5 ∧ (5 : Int) < 96 ∧ (-96 : Int) < -3 ∧ (-3 : Int) < 96) ∧
    ((normalize recA).isSome ∧
     lookupKey ((normalize recA).getD []) "_startTimezone"
       = some (.pytz 75) ∧
     lookupKey ((normalize recA).getD []) "_endTimezone"
       = some (.pytz (-45)) ∧
     lookupKey ((normalize recA).getD []) "_startTime"
       = some (.pydatetime 1000 75) ∧
     lookupKey ((normalize recA).getD []) "_endTime"
       = some (.pydatetime 2000 (-45))) :=
  ⟨⟨rfl, rfl, rfl, rfl, rfl, rfl, rfl, rfl,
    by decide, by decide, by decide, by decide⟩,
   C5_quarter_hour_timezones recA (setKey recA "_sportType" (.sport 100))
     (.int 100) (.pydate 2023 1 5) 20230105 5 (-3) 1000 2000
     rfl rfl rfl rfl rfl rfl rfl rfl
     (by decide) (by decide) (by decide) (by decide)⟩

/-- C6 counterexample: the field `_date` does not match the boolean-flag
prefix rule, yet a raw vendor field of that name does NOT keep its
original value: normalization overwrites it with the derived date
object.  Record `recU` carries a raw field `_date = 7`; after
normalization the field holds `date(2023, 1, 5)`. -/
theorem C6_counterexample :
    (normalize recU).isSome ∧
    (strStartsWith "_date" "has" || strStartsWith "_date" "is") = false ∧
    lookupKey ((normalize recU).getD []) "_date" ≠ lookupKey recU "_date" := by
  refine ⟨rfl, by decide, fun h => ?_⟩
  have h2 : (some (PyVal.pydate 2023 1 5) : Option PyVal)
      = some (.int 7) := h
  exact PyVal.noConfusion (Option.some.inj h2)

/-- C6 (amended): in every record normalized by `list_activities`, a
field named `hasGps` with raw integer value `g` becomes the boolean
`g ≠ 0` (so `1` becomes true and `0` becomes false), and every field
whose name neither matches the `has`/`is` flag-prefix rule NOR is one of
the six reserved derived names (`_sportType`, `_date`, `_startTimezone`,
`_endTimezone`, `_startTime`, `_endTime`) keeps its original value
unchanged, whatever that value is. -/
theorem C6_flag_coercion_amended (a a1 : PyDict) (sv dv stz etz : PyVal)
    (dn sq eq sT eT g : Int) (k : String)
    (hsv : lookupKey a "sportType" = some sv)
    (hss : sportStep a sv = some a1)
    (hdn : getInt a "date" = some dn)
    (hdv : mkDate (dn.fdiv 10000) ((dn.fdiv 100).fmod 100) (dn.fmod 100)
           = some dv)
    (hsq : getInt a "startTimezone" = some sq)
    (hstz : mkTimezone (sq * 15) = some stz)
    (heq : getInt a "endTimezone" = some eq)
    (hetz : mkTimezone (eq * 15) = some etz)
    (hsT : getInt a "startTime" = some sT)
    (heT : getInt a "endTime" = some eT)
    (hg : lookupKey a "hasGps" = some (.int g))
    (hk1 : (strStartsWith k "has" || strStartsWith k "is") = false)
    (hk2 : k ≠ "_sportType") (hk3 : k ≠ "_date")
    (hk4 : k ≠ "_startTimezone") (hk5 : k ≠ "_endTimezone")
    (hk6 : k ≠ "_startTime") (hk7 : k ≠ "_endTime") :
    (normalize a).isSome ∧
    lookupKey ((normalize a).getD []) "hasGps" = some (.bool (g != 0)) ∧
    lookupKey ((normalize a).getD []) k = lookupKey a k := by
  have hne := normalize_eq hsv hss hdn hdv hsq hstz heq hetz hsT heT
  rw [hne]
  refine ⟨rfl, ?_, ?_⟩
  · rw [Option.getD_some, lookupKey_coerceFlags_flag _ _ (by decide),
      lookupKey_setKey_ne _ _ _ _ (by decide),
      lookupKey_setKey_ne _ _ _ _ (by decide),
      lookupKey_setKey_ne _ _ _ _ (by decide),
      lookupKey_setKey_ne _ _ _ _ (by decide),
      lookupKey_setKey_ne _ _ _ _ (by decide),
      lookupKey_sportStep _ hss (by decide), hg]
    rfl
  · rw [Option.getD_some, lookupKey_coerceFlags_nonflag _ _ hk1,
      lookupKey_setKey_ne _ _ _ _ (Ne.symm hk7),
      lookupKey_setKey_ne _ _ _ _ (Ne.symm hk6),
      lookupKey_setKey_ne _ _ _ _ (Ne.symm hk5),
      lookupKey_setKey_ne _ _ _ _ (Ne.symm hk4),
      lookupKey_setKey_ne _ _ _ _ (Ne.symm hk3),
      lookupKey_sportStep _ hss hk2]

/-- Witness for C6 (amended) at record `recA` (`hasGps = 1` becomes
`true`) with pass-through field `date`. -/
theorem C6_flag_coercion_amended_witness :
    (lookupKey recA "sportType" = some (.int 100) ∧
     sportStep recA (.int 100) = some (setKey recA "_sportType" (.sport 100)) ∧
     getInt recA "date" = some 20230105 ∧
     mkDate ((20230105 : Int).fdiv 10000)
       (((20230105 : Int).fdiv 100).fmod 100) ((20230105 : Int).fmod 100)
       = some (.pydate 2023 1 5) ∧
     getInt recA "startTimezone" = some 5 ∧
     mkTimezone (5 * 15) = some (.pytz 75) ∧
     getInt recA "endTimezone" = some (-3) ∧
     mkTimezone ((-3) * 15) = some (.pytz (-45)) ∧
     getInt recA "startTime" = some 1000 ∧
     getInt recA "endTime" = some 2000 ∧
     lookupKey recA "hasGps" = some (.int 1) ∧
     (strStartsWith "date" "has" || strStartsWith "date" "is") = false ∧
     "date" ≠ "_sportType" ∧ "date" ≠ "_date" ∧
     "date" ≠ "_startTimezone" ∧ "date" ≠ "_endTimezone" ∧
     "date" ≠ "_startTime" ∧ "date" ≠ "_endTime") ∧
    ((normalize recA).isSome ∧
     lookupKey ((normalize recA).getD []) "hasGps"
       = some (.bool ((1 : Int) != 0)) ∧
     lookupKey ((normalize recA).getD []) "date" = lookupKey recA "date") :=
  ⟨⟨rfl, rfl, rfl, rfl, rfl, rfl, rfl, rfl, rfl, rfl, rfl,
    by decide, by decide, by decide, by decide, by decide, by decide,
    by decide⟩,
   C6_flag_coercion_amended recA (setKey recA "_sportType" (.sport 100))
     (.int 100) (.pydate 2023 1 5) (.pytz 75) (.pytz (-45))
     20230105 5 (-3) 1000 2000 1 "date"
     rfl rfl rfl rfl rfl rfl rfl rfl rfl rfl rfl
     (by decide) (by decide) (by decide) (by decide) (by decide)
     (by decide) (by decide)⟩

/-- C7: a record whose `sportType` integer code is not a member of the
sport-type enumeration (and which carries a `labelId`, read by the
diagnostic trace) does not make normalization raise: the record is still
produced, its raw `sportType` field retains the unrecognized integer,
and the derived `_sportType` field is absent (given that the raw record
did not itself carry a field of that reserved name). -/
theorem C7_unknown_sport_type (a : PyDict) (n : Int) (lb dv stz etz : PyVal)
    (dn sq eq sT eT : Int)
    (hsv : lookupKey a "sportType" = some (.int n))
    (hn : n ∉ corosSportTypeCodes)
    (hlb : lookupKey a "labelId" = some lb)
    (hnod : lookupKey a "_sportType" = none)
    (hdn : getInt a "date" = some dn)
    (hdv : mkDate (dn.fdiv 10000) ((dn.fdiv 100).fmod 100) (dn.fmod 100)
           = some dv)
    (hsq : getInt a "startTimezone" = some sq)
    (hstz : mkTimezone (sq * 15) = some stz)
    (heq : getInt a "endTimezone" = some eq)
    (hetz : mkTimezone (eq * 15) = some etz)
    (hsT : getInt a "startTime" = some sT)
    (heT : getInt a "endTime" = some eT) :
    (normalize a).isSome ∧
    lookupKey ((normalize a).getD []) "sportType" = some (.int n) ∧
    lookupKey ((normalize a).getD []) "_sportType" = none := by
  have hss : sportStep a (.int n) = some a := by
    simp only [sportStep, corosSportTypeOf]
    rw [if_neg hn, hlb]
  have hne := normalize_eq hsv hss hdn hdv hsq hstz heq hetz hsT heT
  rw [hne]
  refine ⟨rfl, ?_, ?_⟩
  · rw [Option.getD_some, lookupKey_coerceFlags_nonflag _ _ (by decide),
      lookupKey_setKey_ne _ _ _ _ (by decide),
      lookupKey_setKey_ne _ _ _ _ (by decide),
      lookupKey_setKey_ne _ _ _ _ (by decide),
      lookupKey_setKey_ne _ _ _ _ (by decide),
      lookupKey_setKey_ne _ _ _ _ (by decide), hsv]
  · rw [Option.getD_some, lookupKey_coerceFlags_nonflag _ _ (by decide),
      lookupKey_setKey_ne _ _ _ _ (by decide),
      lookupKey_setKey_ne _ _ _ _ (by decide),
      lookupKey_setKey_ne _ _ _ _ (by decide),
      lookupKey_setKey_ne _ _ _ _ (by decide),
      lookupKey_setKey_ne _ _ _ _ (by decide), hnod]

/-- Witness for C7 at record `rec999` with unknown sport code 999. -/
theorem C7_unknown_sport_type_witness :
    (lookupKey rec999 "sportType" = some (.int 999) ∧
     (999 : Int) ∉ corosSportTypeCodes ∧
     lookupKey rec999 "labelId" = some (.str "x9") ∧
     lookupKey rec999 "_sportType" = none ∧
     getInt rec999 "date" = some 20230107 ∧
     mkDate ((20230107 : Int).fdiv 10000)
       (((20230107 : Int).fdiv 100).fmod 100) ((20230107 : Int).fmod 100)
       = some (.pydate 2023 1 7) ∧
     getInt rec999 "startTimezone" = some 0 ∧
     mkTimezone (0 * 15) = some (.pytz 0) ∧
     getInt rec999 "endTimezone" = some 0 ∧
     getInt rec999 "startTime" = some 5000 ∧
     getInt rec999 "endTime" = some 6000) ∧
    ((normalize rec999).isSome ∧
     lookupKey ((normalize rec999).getD []) "sportType" = some (.int 999) ∧
     lookupKey ((normalize rec999).getD []) "_sportType" = none) :=
  ⟨⟨rfl, by decide, rfl, rfl, rfl, rfl, rfl, rfl, rfl, rfl, rfl⟩,
   C7_unknown_sport_type rec999 999 (.str "x9") (.pydate 2023 1 7)
     (.pytz 0) (.pytz 0) 20230107 0 0 5000 6000
     rfl (by decide) rfl rfl rfl rfl rfl rfl rfl rfl rfl rfl⟩

/-- C9 counterexample: the claim's "only when no username was supplied
does the client adopt the authenticated email as its stored username"
is false: line 100 runs unconditionally, so a supplied username that
matches the email only case-insensitively is REPLACED by the email.
`c9client` supplied username `"A@B.C"`; after authentication the stored
username is `"a@b.c"`, not the supplied string. -/
theorem C9_counterexample :
    finishAuth c9client c9body
      = .ok { c9client with
              accesstoken := some "tok1",
              userId := some (.str "42"), nickname := some (.str "nick"),
              username := some "a@b.c" } ∧
    some "a@b.c" ≠ c9client.username :=
  ⟨rfl, by decide⟩

/-- C9 (amended): on every successful authentication epilogue, a
supplied (truthy) username is asserted — failing loudly with an
`AssertionError`, not silently — to equal the authenticated email
case-insensitively; and the client ALWAYS adopts the authenticated
email as the stored username, whether or not a username was supplied. -/
theorem C9_username_adoption_amended (c : ClientState)
    (jf df : List (String × PyVal)) (dTok : String) (uid nick : PyVal)
    (email u : String)
    (hdata : lookupKey jf "data" = some (.obj df))
    (hdt : lookupKey df "accessToken" = some (.str dTok))
    (hdu : lookupKey df "userId" = some uid)
    (hdn : lookupKey df "nickname" = some nick)
    (hde : lookupKey df "email" = some (.str email))
    (hu : c.username = some u) (hune : u ≠ "") :
    finishAuth c (.obj jf)
      = (if strToLower u = strToLower email
         then .ok { c with
                    accesstoken := some dTok, userId := some uid,
                    nickname := some nick, username := some email }
         else .error .assertionError) ∧
    finishAuth { c with username := none } (.obj jf)
      = .ok { c with
              accesstoken := some dTok, userId := some uid,
              nickname := some nick, username := some email } := by
  refine ⟨?_, ?_⟩
  · simp only [finishAuth, hdata, hdt, hdu, hdn, hde, hu]
    rw [if_neg hune]
  · simp only [finishAuth, hdata, hdt, hdu, hdn, hde]

/-- Witness for C9 (amended): username `"A@B.C"`, email `"a@b.c"`. -/
theorem C9_username_adoption_amended_witness :
    (lookupKey [("accessToken", PyVal.str "tok1"), ("userId", PyVal.str "42"),
        ("nickname", PyVal.str "nick"), ("email", PyVal.str "a@b.c")]
        "accessToken" = some (.str "tok1") ∧
     c9client.username = some "A@B.C" ∧ "A@B.C" ≠ "") ∧
    (finishAuth c9client
        (.obj [("result", .str "0000"),
               ("data", .obj [("accessToken", .str "tok1"),
                              ("userId", .str "42"),
                              ("nickname", .str "nick"),
                              ("email", .str "a@b.c")])])
      = (if strToLower "A@B.C" = strToLower "a@b.c"
         then .ok { c9client with
                    accesstoken := some "tok1",
                    userId := some (.str "42"),
                    nickname := some (.str "nick"),
                    username := some "a@b.c" }
         else .error .assertionError) ∧
     finishAuth { c9client with username := none }
        (.obj [("result", .str "0000"),
               ("data", .obj [("accessToken", .str "tok1"),
                              ("userId", .str "42"),
                              ("nickname", .str "nick"),
                              ("email", .str "a@b.c")])])
      = .ok { c9client with
              accesstoken := some "tok1",
              userId := some (.str "42"), nickname := some (.str "nick"),
              username := some "a@b.c" }) :=
  ⟨⟨rfl, rfl, by decide⟩,
   C9_username_adoption_amended c9client
     [("result", .str "0000"),
      ("data", .obj [("accessToken", .str "tok1"), ("userId", .str "42"),
                     ("nickname", .str "nick"), ("email", .str "a@b.c")])]
     [("accessToken", .str "tok1"), ("userId", .str "42"),
      ("nickname", .str "nick"), ("email", .str "a@b.c")]
     "tok1" (.str "42") (.str "nick") "a@b.c" "A@B.C"
     rfl rfl rfl rfl rfl rfl (by decide)⟩

/-- C4: a client constructed with a (truthy) pre-supplied access token
whose identity query fails in any way (`e` arbitrary): if username and
password are also supplied and the login response is a valid success
envelope, `connect`'s authentication discards the token, falls back to
the password path and succeeds, ending with the fresh token; while the
same client with the password missing, or with the username missing,
fails with the authentication error before anything else is attempted. -/
theorem C4_token_fallback (c : ClientState) (qr lr : Resp)
    (tok u pw : String) (e : CorosError) (jf df : List (String × PyVal))
    (dTok : String) (uid nick : PyVal) (email : String)
    (htok : c.accesstoken = some tok) (htne : tok ≠ "")
    (hq : corosRaiseOrJson qr = .error e)
    (hu : c.username = some u) (hp : c.password = some pw)
    (hlr : lr = .body (.obj jf))
    (hres : isSuccessResult (lookupKey jf "result") = true)
    (hdata : lookupKey jf "data" = some (.obj df))
    (hdt : lookupKey df "accessToken" = some (.str dTok))
    (hdu : lookupKey df "userId" = some uid)
    (hdn : lookupKey df "nickname" = some nick)
    (hde : lookupKey df "email" = some (.str email))
    (hmatch : strToLower u = strToLower email) :
    authenticate c qr lr
      = .ok { c with
              accesstoken := some dTok, userId := some uid,
              nickname := some nick, username := some email } ∧
    authenticate { c with password := none } qr lr
      = .error (.authError authMsg) ∧
    authenticate { c with username := none } qr lr
      = .error (.authError authMsg) := by
  subst hlr
  have hlogin : corosRaiseOrJson (.body (.obj jf)) = .ok (.obj jf) := by
    simp [corosRaiseOrJson, hres]
  have htb : truthyStr c.accesstoken = true := by
    rw [htok]; simpa [truthyStr] using htne
  refine ⟨?_, ?_, ?_⟩
  · simp only [authenticate, htb, if_true, hq, hlogin]
    rw [if_neg (by simp [hu, hp])]
    simp only [finishAuth, hdata, hdt, hdu, hdn, hde]
    simp only [hu]
    by_cases hu0 : u = ""
    · rw [if_pos hu0]
    · rw [if_neg hu0, if_pos hmatch]
  · have htb2 : truthyStr ({ c with password := none } : ClientState).accesstoken
        = true := htb
    simp only [authenticate, htb2, if_true, hq]
    simp
  · have htb3 : truthyStr ({ c with username := none } : ClientState).accesstoken
        = true := htb
    simp only [authenticate, htb3, if_true, hq]
    simp

/-- Witness for C4 at `c4client` with failing query `c4query` and valid
login `c4login`. -/
theorem C4_token_fallback_witness :
    (c4client.accesstoken = some "oldtok" ∧ "oldtok" ≠ "" ∧
     corosRaiseOrJson c4query
       = .error (.api (some (.str "token expired")) (some (.str "1001"))) ∧
     c4client.username = some "user@example.com" ∧
     c4client.password = some "hunter2" ∧
     strToLower "user@example.com" = strToLower "User@Example.com") ∧
    (authenticate c4client c4query c4login
       = .ok { c4client with
               accesstoken := some "newtok",
               userId := some (.str "42"), nickname := some (.str "nick"),
               username := some "User@Example.com" } ∧
     authenticate { c4client with password := none } c4query c4login
       = .error (.authError authMsg) ∧
     authenticate { c4client with username := none } c4query c4login
       = .error (.authError authMsg)) :=
  ⟨⟨rfl, by decide, rfl, rfl, rfl, by decide⟩,
   C4_token_fallback c4client c4query c4login
     "oldtok" "user@example.com" "hunter2"
     (.api (some (.str "token expired")) (some (.str "1001")))
     [("result", .str "0000"),
      ("data", .obj [("accessToken", .str "newtok"), ("userId", .str "42"),
                     ("nickname", .str "nick"),
                     ("email", .str "User@Example.com")])]
     [("accessToken", .str "newtok"), ("userId", .str "42"),
      ("nickname", .str "nick"), ("email", .str "User@Example.com")]
     "newtok" (.str "42") (.str "nick") "User@Example.com"
     rfl (by decide) rfl rfl rfl rfl rfl rfl rfl rfl rfl rfl (by decide)⟩

end Corostc
